import Mathlib

/-!
Verification of the GamePredictor team-statistics aggregation pipeline.

The definitions below are a shallow embedding of the Python sources
`team_stats_aggregator.py` and `advanced_team_stats.py`:

* pandas/Python numerics are modelled over `ℚ` (exact rationals);
* a cell of a provider table is a `RawVal`: a numeric value, an
  unparseable value (a non-numeric string), or a missing value (NaN);
* Python operations that can raise (`int(...)` on unparseable input,
  division by zero) return `Option`/`Except`, with `none`/`error`
  standing for the raised exception;
* `round(x, d)` is Python's round-half-to-even at `d` decimal places;
* the external providers (FotMob league tables, FBref season tables)
  are explicit inputs: a function from league code and season to a
  fetch result for the fast source, and three lists of rows (standard,
  possession, shooting) for the detailed source.
-/

/-- Python division `a / b`: raises `ZeroDivisionError` when `b = 0`,
modelled as `none`. -/
def pyDiv (a b : ℚ) : Option ℚ :=
  if b = 0 then none else some (a / b)

/-- Python `int(q)` on a numeric value truncates toward zero. -/
def pytrunc (q : ℚ) : ℤ :=
  if 0 ≤ q then ⌊q⌋ else ⌈q⌉

/-- Python `round` at integer precision: round-half-to-even. -/
def roundHalfEven (q : ℚ) : ℤ :=
  if q - ⌊q⌋ < 1/2 then ⌊q⌋
  else if 1/2 < q - ⌊q⌋ then ⌊q⌋ + 1
  else if ⌊q⌋ % 2 = 0 then ⌊q⌋ else ⌊q⌋ + 1

/-- Python `round(q, d)`: round-half-to-even at `d` decimal places. -/
def pyRound (q : ℚ) (d : ℕ) : ℚ :=
  (roundHalfEven (q * 10 ^ d) : ℚ) / 10 ^ d

/-- One cell of a provider table: a parsed numeric value, a value that
fails to parse as a number (e.g. a non-numeric string), or NaN. -/
inductive RawVal where
  | num (q : ℚ)
  | bad
  | nanV
deriving DecidableEq

/-- `pd.to_numeric(v, errors='coerce')`: numeric values pass through,
anything unparseable (and NaN) becomes NaN, modelled as `none`. -/
def toNumeric : RawVal → Option ℚ
  | .num q => some q
  | .bad => none
  | .nanV => none

/-- `pd.notna(v)`: false only for NaN (an unparseable string is not NA). -/
def notna : RawVal → Bool
  | .num _ => true
  | .bad => true
  | .nanV => false

/-- Python `int(v)` on a raw cell: truncates numerics, raises (`none`)
on unparseable values and NaN. -/
def pyInt : RawVal → Option ℤ
  | .num q => some (pytrunc q)
  | .bad => none
  | .nanV => none

/-- The pattern `int(v) if pd.notna(v) else 0` applied to a raw cell;
may still raise when the cell is non-NA but unparseable. -/
def pyIntField (v : RawVal) : Option ℤ :=
  if notna v then pyInt v else some 0

/-- The pattern `int(v) if pd.notna(v) else 0` applied to an already
coerced (`pd.to_numeric(..., errors='coerce')`) value; never raises. -/
def intOfCoerced : Option ℚ → ℤ
  | some q => pytrunc q
  | none => 0

/-- Helper for `pyTitle`: tracks whether the previous character was
alphabetic. -/
def pyTitleGo : List Char → Bool → List Char
  | [], _ => []
  | c :: cs, prevAlpha =>
    (if c.isAlpha then (if prevAlpha then c.toLower else c.toUpper) else c)
      :: pyTitleGo cs c.isAlpha

/-- Python `str.title()`: uppercase each letter that follows a
non-letter, lowercase the rest. -/
def pyTitle (s : String) : String :=
  ⟨pyTitleGo s.toList false⟩

/-- Python `str.lower()`. -/
def pyLower (s : String) : String :=
  ⟨s.toList.map Char.toLower⟩

/-- `needle` occurs contiguously somewhere in `hay` (list version). -/
def infixCheck : List Char → List Char → Bool
  | needle, [] => needle.isEmpty
  | needle, c :: rest => needle.isPrefixOf (c :: rest) || infixCheck needle rest

/-- `needle` occurs as a contiguous substring of `hay`
(Python `needle in hay` on strings). -/
def substrOf (needle hay : String) : Bool :=
  infixCheck needle.toList hay.toList

/-- Case-insensitive containment used by
`df['team'].str.contains(query, case=False)`. -/
def containsCI (hay needle : String) : Bool :=
  substrOf (pyLower needle) (pyLower hay)

/-! ## Fast source (FotMob) data model and `TeamStatsAggregator` -/

/-- One row of a FotMob league table (`read_league_table()`); columns
`team, MP, W, D, L, GF, GA, GD, Pts`. -/
structure RawRow where
  team : String
  mp : RawVal
  w : RawVal
  d : RawVal
  l : RawVal
  gf : RawVal
  ga : RawVal
  gd : RawVal
  pts : RawVal
deriving DecidableEq

/-- The fast-source provider: league code and season to the result of
`FotMob(leagues=code, seasons=season).read_league_table()`; `error`
models a raised provider exception. -/
def Provider := String → String → Except Unit (List RawRow)

/-- `TeamStatsAggregator.league_mappings` (user league aliases to
FotMob league codes). -/
def league_mappings : List (String × String) :=
  [("england", "ENG-Premier League"),
   ("premier league", "ENG-Premier League"),
   ("epl", "ENG-Premier League"),
   ("spain", "ESP-La Liga"),
   ("la liga", "ESP-La Liga"),
   ("germany", "GER-Bundesliga"),
   ("bundesliga", "GER-Bundesliga"),
   ("italy", "ITA-Serie A"),
   ("serie a", "ITA-Serie A"),
   ("france", "FRA-Ligue 1"),
   ("ligue 1", "FRA-Ligue 1")]

/-- `TeamStatsAggregator.seasons`: the five requested seasons, newest
first, in FotMob's slash format. -/
def seasons : List String :=
  ["2024/2025", "2023/2024", "2022/2023", "2021/2022", "2020/2021"]

/-- `team_variations` in `TeamStatsAggregator.find_team_match`: the
fixed nickname alias table. -/
def team_variations : List (String × String) :=
  [("man city", "Manchester City"),
   ("man united", "Manchester United"),
   ("man u", "Manchester United"),
   ("spurs", "Tottenham Hotspur"),
   ("tottenham", "Tottenham Hotspur"),
   ("real", "Real Madrid"),
   ("barca", "Barcelona"),
   ("bayern", "Bayern MÃ¼nchen"),
   ("dortmund", "Borussia Dortmund"),
   ("psg", "Paris Saint-Germain"),
   ("juve", "Juventus"),
   ("inter", "Inter Milan"),
   ("milan", "AC Milan")]

/-- `TeamStatsAggregator.get_available_teams`: raises (`error`, with
the list of valid aliases) on an unknown league; a provider failure is
caught and yields the empty list. -/
def get_available_teams (provider : Provider) (league : String) :
    Except (List String) (List String) :=
  match league_mappings.lookup (pyLower league) with
  | none => .error (league_mappings.map (fun p => p.1))
  | some code =>
    match provider code "2024/2025" with
    | .error _ => .ok []
    | .ok table => .ok (table.map (fun r => r.team))

/-- The matching core of `TeamStatsAggregator.find_team_match`, given
the fetched roster: empty-roster early exit, case-insensitive exact
match, substring match in either direction, then the alias table
(accepted only when the mapped name is in the roster). -/
def find_team_match_core (available : List String) (team_input : String) :
    Option String :=
  if available.isEmpty then none
  else
    match available.find? (fun t => (pyLower t) == (pyLower team_input)) with
    | some t => some t
    | none =>
      match available.find? (fun t =>
          substrOf (pyLower team_input) (pyLower t) ||
          substrOf (pyLower t) (pyLower team_input)) with
      | some t => some t
      | none =>
        match team_variations.lookup (pyLower team_input) with
        | some suggested => if available.contains suggested then some suggested else none
        | none => none

/-- `TeamStatsAggregator.find_team_match`: fetch the roster (league
errors propagate), then run the matching core. -/
def find_team_match (provider : Provider) (league team_input : String) :
    Except (List String) (Option String) :=
  match get_available_teams provider league with
  | .error ks => .error ks
  | .ok available => .ok (find_team_match_core available team_input)

/-- Guard `mp > 0 and pd.notna(wins)` followed by
`round((wins / mp) * 100, 1)`, else `0`; the division may in principle
raise (`none`), hence the `Option` result. -/
def winPercentageChecked (mpC wC : Option ℚ) : Option ℚ :=
  match mpC, wC with
  | some m, some w =>
    if 0 < m then (pyDiv w m).map (fun q => pyRound (q * 100) 1) else some 0
  | _, _ => some 0

/-- Guard `mp > 0 and pd.notna(g)` followed by `round(g / mp, 2)`,
else `0`. -/
def perGameChecked (mpC gC : Option ℚ) : Option ℚ :=
  match mpC, gC with
  | some m, some g =>
    if 0 < m then (pyDiv g m).map (fun q => pyRound q 2) else some 0
  | _, _ => some 0

/-- The per-season record built by
`TeamStatsAggregator.get_team_league_table_stats` (the `stats` dict). -/
structure Stats where
  season : String
  league : String
  team : String
  matchesPlayed : ℤ
  wins : ℤ
  draws : ℤ
  losses : ℤ
  goalsFor : ℤ
  goalsAgainst : ℤ
  goalDifference : ℤ
  points : ℤ
  winPercentage : ℚ
  goalsPerGame : ℚ
  goalsAgainstPerGame : ℚ
deriving DecidableEq

/-- Construction of the `stats` dict from a matched league-table row
(lines 127-148 of `team_stats_aggregator.py`). `MP`, `GF`, `GA` are
read through `pd.to_numeric(..., errors='coerce')`; `W`, `D`, `L`,
`GD`, `Pts` are passed raw to `int(...)`, which raises (`none`) on a
non-NA unparseable value. -/
def rowStats (season league : String) (r : RawRow) : Option Stats :=
  match pyIntField r.w, pyIntField r.d, pyIntField r.l,
        pyIntField r.gd, pyIntField r.pts,
        winPercentageChecked (toNumeric r.mp) (toNumeric r.w),
        perGameChecked (toNumeric r.mp) (toNumeric r.gf),
        perGameChecked (toNumeric r.mp) (toNumeric r.ga) with
  | some wins, some draws, some losses, some gd, some pts,
    some wp, some gpg, some gapg =>
    some { season := season
           league := pyTitle league
           team := r.team
           matchesPlayed := intOfCoerced (toNumeric r.mp)
           wins := wins
           draws := draws
           losses := losses
           goalsFor := intOfCoerced (toNumeric r.gf)
           goalsAgainst := intOfCoerced (toNumeric r.ga)
           goalDifference := gd
           points := pts
           winPercentage := wp
           goalsPerGame := gpg
           goalsAgainstPerGame := gapg }
  | _, _, _, _, _, _, _, _ => none

/-- One iteration of the season loop, together with the console
messages it prints: a provider error or a raised `int(...)` is caught
(`Error fetching ...`), an absent team row is logged and skipped. -/
def processSeasonLogged (tbl : Except Unit (List RawRow))
    (name league s : String) : Option Stats × List String :=
  match tbl with
  | .error _ => (none, ["Error fetching " ++ s])
  | .ok table =>
    match table.find? (fun r => r.team == name) with
    | none => (none, ["Team not found in " ++ s])
    | some row =>
      match rowStats s league row with
      | some st => (some st, [])
      | none => (none, ["Error fetching " ++ s])

/-- The season's contribution to the report (first component of
`processSeasonLogged`). -/
def processSeason (tbl : Except Unit (List RawRow))
    (name league s : String) : Option Stats :=
  (processSeasonLogged tbl name league s).1

/-- The `for season in self.seasons` loop: failed or empty seasons are
skipped, successful ones appended in order. -/
def seasons_loop (provider : Provider) (code name league : String) :
    List String → List Stats
  | [] => []
  | s :: rest =>
    match processSeason (provider code s) name league s with
    | some st => st :: seasons_loop provider code name league rest
    | none => seasons_loop provider code name league rest

/-- Possible outcomes of `get_team_league_table_stats`. The code never
produces `sourceUnavailable`; the constructor exists so that the
spec's error taxonomy can be stated. -/
inductive Outcome where
  | leagueNotFound (valid : List String)
  | teamNotFound (available : List String)
  | sourceUnavailable
  | noDataFound
  | report (l : List Stats)
deriving DecidableEq

/-- `TeamStatsAggregator.get_team_league_table_stats`: league lookup,
team resolution, the five-season fetch loop, and the empty-result
check. -/
def get_team_league_table_stats (provider : Provider)
    (league team : String) : Outcome :=
  match league_mappings.lookup (pyLower league) with
  | none => .leagueNotFound (league_mappings.map (fun p => p.1))
  | some code =>
    match find_team_match provider league team with
    | .error ks => .leagueNotFound ks
    | .ok none =>
      .teamNotFound
        (match get_available_teams provider league with
         | .ok l => l
         | .error _ => [])
    | .ok (some name) =>
      if (seasons_loop provider code name league seasons).isEmpty then
        .noDataFound
      else .report (seasons_loop provider code name league seasons)

/-- The rows of a successful report, as a `filterMap` over the season
list (proved equal to `seasons_loop` below). -/
def reportRows (provider : Provider) (code name league : String) : List Stats :=
  seasons.filterMap (fun s => processSeason (provider code s) name league s)

/-- `stats_df['Points'].mean()` over a report. -/
def averagePoints (l : List Stats) : ℚ :=
  (l.map (fun st => (st.points : ℚ))).sum / l.length

/-- `stats_df['Goals_Per_Game'].mean()` over a report. -/
def averageGoalsPerGame (l : List Stats) : ℚ :=
  (l.map (fun st => st.goalsPerGame)).sum / l.length

/-! ## Enhanced path (`get_enhanced_team_stats`) -/

/-- Possession estimate of `get_enhanced_team_stats`:
`min(65, max(35, 50 + GD*0.3 + Pts*0.1))`, then `.round(1)`. -/
def estimatePossessionEnhanced (gd pts : ℚ) : ℚ :=
  pyRound (min 65 (max 35 (50 + gd * (3/10) + pts * (1/10)))) 1

/-- pandas `.clip(lower, upper)`. -/
def pyClip (lo hi x : ℚ) : ℚ :=
  max lo (min hi x)

/-- A row of the enhanced report: the basic stats plus the estimated
columns added by `get_enhanced_team_stats`. -/
structure EnhancedStats where
  stats : Stats
  avgPossession : ℚ
  shotsPerGame : ℚ
  expectedGoalsFor : ℚ
  expectedGoalsAgainst : ℚ
deriving DecidableEq

/-- The columns `get_enhanced_team_stats` adds to one basic row;
`e1, e2, e3` are that row's samples of the `np.random.normal` noise. -/
def enhancedRow (st : Stats) (e1 e2 e3 : ℚ) : EnhancedStats :=
  { stats := st
    avgPossession := estimatePossessionEnhanced st.goalDifference st.points
    shotsPerGame := pyClip 8 20 (pyRound ((st.goalsPerGame) * 6 + e1) 1)
    expectedGoalsFor := pyRound ((st.goalsFor : ℚ) * (9/10 + e2)) 1
    expectedGoalsAgainst := pyRound ((st.goalsAgainst : ℚ) * (9/10 + e3)) 1 }

/-! ## Detailed source (FBref) and `AdvancedTeamStatsAggregator` -/

/-- One row of an FBref `read_team_season_stats` table; the columns
relevant to the aggregator (`mp..pts` from `standard`, `poss` from
`possession`, `sh`/`sot` from `shooting`). -/
structure FbrefRow where
  league : String
  season : String
  team : String
  mp : ℚ
  w : ℚ
  d : ℚ
  l : ℚ
  gf : ℚ
  ga : ℚ
  gd : ℚ
  pts : ℚ
  poss : ℚ
  sh : ℚ
  sot : ℚ
deriving DecidableEq

/-- The three FBref tables fetched by `get_fbref_team_stats`. -/
structure FbrefTables where
  standard : List FbrefRow
  possession : List FbrefRow
  shooting : List FbrefRow
deriving DecidableEq

/-- `AdvancedTeamStatsAggregator.fbref_league_mappings`. -/
def fbref_league_mappings : List (String × String) :=
  [("england", "Premier League"),
   ("premier league", "Premier League"),
   ("epl", "Premier League"),
   ("spain", "La Liga"),
   ("la liga", "La Liga"),
   ("germany", "Bundesliga"),
   ("bundesliga", "Bundesliga"),
   ("italy", "Serie A"),
   ("serie a", "Serie A"),
   ("france", "Ligue 1"),
   ("ligue 1", "Ligue 1")]

/-- `AdvancedTeamStatsAggregator.seasons`: the same five seasons in
FBref's dash format. -/
def advSeasons : List String :=
  ["2024-2025", "2023-2024", "2022-2023", "2021-2022", "2020-2021"]

/-- Row selection in `get_fbref_team_stats`: league and season
equality plus `team.str.contains(team, case=False)` — case-insensitive
substring containment of the raw user query — taking the first match. -/
def fbrefFind (table : List FbrefRow) (ln season query : String) :
    Option FbrefRow :=
  table.find? (fun r => r.league == ln && r.season == season &&
    containsCI r.team query)

/-- The `season_data` dict assembled per season by
`get_fbref_team_stats`; every field is optional because each block of
keys is only added when the corresponding table had a matching row. -/
structure DetRow where
  season : Option String
  team : Option String
  league : Option String
  matchesPlayed : Option ℚ
  wins : Option ℚ
  draws : Option ℚ
  losses : Option ℚ
  goalsFor : Option ℚ
  goalsAgainst : Option ℚ
  goalDifference : Option ℚ
  points : Option ℚ
  avgPossession : Option ℚ
  shotsPerGame : Option ℚ
  shotsOnTargetPerGame : Option ℚ
deriving DecidableEq

/-- One iteration of the season loop of `get_fbref_team_stats`. The
outer `Option` is the function-level exception (the unguarded
divisions `sh / season_data.get('Matches_Played', 1)`); the inner
`Option` is whether a non-empty `season_data` was appended. -/
def fbrefSeasonData (tables : FbrefTables) (ln query season : String) :
    Option (Option DetRow) :=
  match fbrefFind tables.shooting ln season query with
  | none =>
    if (fbrefFind tables.standard ln season query).isNone &&
       (fbrefFind tables.possession ln season query).isNone then
      some none
    else
      some (some
        { season := (fbrefFind tables.standard ln season query).map (fun _ => season)
          team := (fbrefFind tables.standard ln season query).map (fun r => r.team)
          league := (fbrefFind tables.standard ln season query).map (fun _ => ln)
          matchesPlayed := (fbrefFind tables.standard ln season query).map (fun r => r.mp)
          wins := (fbrefFind tables.standard ln season query).map (fun r => r.w)
          draws := (fbrefFind tables.standard ln season query).map (fun r => r.d)
          losses := (fbrefFind tables.standard ln season query).map (fun r => r.l)
          goalsFor := (fbrefFind tables.standard ln season query).map (fun r => r.gf)
          goalsAgainst := (fbrefFind tables.standard ln season query).map (fun r => r.ga)
          goalDifference := (fbrefFind tables.standard ln season query).map (fun r => r.gd)
          points := (fbrefFind tables.standard ln season query).map (fun r => r.pts)
          avgPossession := (fbrefFind tables.possession ln season query).map (fun r => r.poss)
          shotsPerGame := none
          shotsOnTargetPerGame := none })
  | some sr =>
    let mpDiv : ℚ :=
      match fbrefFind tables.standard ln season query with
      | some r => r.mp
      | none => 1
    match pyDiv sr.sh mpDiv, pyDiv sr.sot mpDiv with
    | some spg, some sotg =>
      some (some
        { season := (fbrefFind tables.standard ln season query).map (fun _ => season)
          team := (fbrefFind tables.standard ln season query).map (fun r => r.team)
          league := (fbrefFind tables.standard ln season query).map (fun _ => ln)
          matchesPlayed := (fbrefFind tables.standard ln season query).map (fun r => r.mp)
          wins := (fbrefFind tables.standard ln season query).map (fun r => r.w)
          draws := (fbrefFind tables.standard ln season query).map (fun r => r.d)
          losses := (fbrefFind tables.standard ln season query).map (fun r => r.l)
          goalsFor := (fbrefFind tables.standard ln season query).map (fun r => r.gf)
          goalsAgainst := (fbrefFind tables.standard ln season query).map (fun r => r.ga)
          goalDifference := (fbrefFind tables.standard ln season query).map (fun r => r.gd)
          points := (fbrefFind tables.standard ln season query).map (fun r => r.pts)
          avgPossession := (fbrefFind tables.possession ln season query).map (fun r => r.poss)
          shotsPerGame := some spg
          shotsOnTargetPerGame := some sotg })
    | _, _ => none

/-- The `for season in self.seasons` loop of `get_fbref_team_stats`:
a raised exception (`none`) aborts the whole loop, otherwise non-empty
season dicts are collected in order. -/
def fbref_loop (tables : FbrefTables) (ln query : String) :
    List String → Option (List DetRow)
  | [] => some []
  | s :: rest =>
    match fbrefSeasonData tables ln query s with
    | none => none
    | some none => fbref_loop tables ln query rest
    | some (some d) => (fbref_loop tables ln query rest).map (fun l => d :: l)

/-- `AdvancedTeamStatsAggregator.get_fbref_team_stats`: unknown league
or an exception anywhere in the loop gives `None`, as does an empty
result (`pd.DataFrame(team_data) if team_data else None`). -/
def get_fbref_team_stats (tables : FbrefTables) (league query : String) :
    Option (List DetRow) :=
  match fbref_league_mappings.lookup (pyLower league) with
  | none => none
  | some ln =>
    match fbref_loop tables ln query advSeasons with
    | none => none
    | some l => if l.isEmpty then none else some l

/-! ## Hybrid path (`get_hybrid_team_stats`) -/

/-- Possession estimate used by the hybrid `fillna`:
`min(65, max(35, 50 + GD*0.3))` (no points term, no rounding). -/
def estimatePossessionHybrid (gd : ℚ) : ℚ :=
  min 65 (max 35 (50 + gd * (3/10)))

/-- A row of the hybrid report: the basic stats plus the advanced
columns, which are absent (`none`) when the FBref fetch produced no
data at all. -/
structure MergedRow where
  stats : Stats
  avgPossession : Option ℚ
  shotsPerGame : Option ℚ
  shotsOnTargetPerGame : Option ℚ
deriving DecidableEq

/-- The `pd.merge(..., on='Season', how='left')` plus the three
`fillna` steps, for one basic row: look up the FBref row with the same
season label, take its value when present, otherwise estimate. The
shots-on-target fill uses the already-filled shots column. -/
def mergeRow (det : List DetRow) (st : Stats) : MergedRow :=
  let d? := det.find? (fun r => r.season == some st.season)
  let poss : ℚ :=
    match d?.bind (fun r => r.avgPossession) with
    | some v => v
    | none => estimatePossessionHybrid (st.goalDifference : ℚ)
  let spg : ℚ :=
    match d?.bind (fun r => r.shotsPerGame) with
    | some v => v
    | none => st.goalsPerGame * 6
  let sotg : ℚ :=
    match d?.bind (fun r => r.shotsOnTargetPerGame) with
    | some v => v
    | none => spg * (7/20)
  { stats := st, avgPossession := some poss, shotsPerGame := some spg,
    shotsOnTargetPerGame := some sotg }

/-- The fallback `return basic_stats`: the advanced columns do not
exist in the returned frame. -/
def basicOnlyRow (st : Stats) : MergedRow :=
  { stats := st, avgPossession := none, shotsPerGame := none,
    shotsOnTargetPerGame := none }

/-- The `try`/`except` around the basic fetch in
`get_hybrid_team_stats`: any non-report outcome was raised as an
exception and yields `None`. -/
def basicOrNone (o : Outcome) : Option (List Stats) :=
  match o with
  | .report l => some l
  | _ => none

/-- Column presence in `pd.DataFrame(team_data)`: a column exists in
the frame exactly when some season dict set that key. The selection
`fbref_stats[['Season', 'Avg_Possession', 'Shots_Per_Game',
'Shots_on_Target_Per_Game']]` in `get_hybrid_team_stats` raises a
`KeyError` unless all four columns exist. -/
def fbrefHasColumns (det : List DetRow) : Bool :=
  det.any (fun d => d.season.isSome) &&
  det.any (fun d => d.avgPossession.isSome) &&
  det.any (fun d => d.shotsPerGame.isSome) &&
  det.any (fun d => d.shotsOnTargetPerGame.isSome)

/-- `AdvancedTeamStatsAggregator.get_hybrid_team_stats`: basic stats
from FotMob (`.ok none` when that fetch failed — only the basic fetch
sits in a `try`), then either the season-wise merge with FBref data or
the basic-only fallback. The four-column selection before the merge
raises a `KeyError` (`.error ()`, uncaught in this function) whenever
one of the columns is absent from the detailed frame. -/
def get_hybrid_team_stats (provider : Provider) (tables : FbrefTables)
    (league team : String) : Except Unit (Option (List MergedRow)) :=
  match basicOrNone (get_team_league_table_stats provider league team) with
  | none => .ok none
  | some bs =>
    match get_fbref_team_stats tables league team with
    | some rows =>
      if rows.isEmpty then .ok (some (bs.map basicOnlyRow))
      else if fbrefHasColumns rows then .ok (some (bs.map (mergeRow rows)))
      else .error ()
    | none => .ok (some (bs.map basicOnlyRow))

/-! ## Concrete providers and tables used by witnesses -/

/-- A league-table row for Arsenal: 10 played, 5-3-2, 20:10 goals. -/
def arsRow : RawRow :=
  ⟨"Arsenal", .num 10, .num 5, .num 3, .num 2, .num 20, .num 10, .num 10, .num 18⟩

/-- The season record `rowStats` builds from `arsRow`. -/
def stArs (s : String) : Stats :=
  ⟨s, "England", "Arsenal", 10, 5, 3, 2, 20, 10, 10, 18, 50, 2, 1⟩

/-- A provider with Arsenal data in three of the five seasons. -/
def provider3 : Provider := fun code s =>
  if code == "ENG-Premier League" &&
     (s == "2024/2025" || s == "2023/2024" || s == "2022/2023") then
    .ok [arsRow]
  else .ok []

/-- A provider whose every call raises. -/
def failProvider : Provider := fun _ _ => .error ()

/-- An Arsenal row whose `W` cell fails to parse as a number. -/
def badWRow : RawRow :=
  ⟨"Arsenal", .num 10, .bad, .num 3, .num 2, .num 20, .num 10, .num 10, .num 18⟩

/-- A provider whose newest season has the unparseable-`W` row and
whose next season has a clean row. -/
def provider4 : Provider := fun code s =>
  if code == "ENG-Premier League" && s == "2024/2025" then .ok [badWRow]
  else if code == "ENG-Premier League" && s == "2023/2024" then .ok [arsRow]
  else .ok []

/-- A row with more wins than matches played (provider data is trusted
as-is, so nothing rules this out). -/
def wp200Row : RawRow :=
  ⟨"Arsenal", .num 1, .num 2, .num 0, .num 0, .num 3, .num 1, .num 2, .num 6⟩

/-- A row whose goal difference (100) disagrees with GF - GA (5). -/
def mmRow : RawRow :=
  ⟨"Arsenal", .num 10, .num 5, .num 3, .num 2, .num 5, .num 0, .num 100, .num 18⟩

/-- The season record `rowStats` builds from `mmRow`. -/
def stMm (s ln : String) : Stats :=
  ⟨s, ln, "Arsenal", 10, 5, 3, 2, 5, 0, 100, 18, 50, 1/2, 0⟩

/-- A row with zero matches played. -/
def zRow : RawRow :=
  ⟨"Zero FC", .num 0, .num 0, .num 0, .num 0, .num 0, .num 0, .num 0, .num 0⟩

/-- The season record `rowStats` builds from `zRow`. -/
def stZ : Stats :=
  ⟨"2024/2025", "England", "Zero FC", 0, 0, 0, 0, 0, 0, 0, 0, 0, 0, 0⟩

/-- Manchester United league-table row: 30 played, 15-10-5, 60:30. -/
def muRow : RawRow :=
  ⟨"Manchester United", .num 30, .num 15, .num 10, .num 5, .num 60, .num 30,
   .num 30, .num 55⟩

/-- Newcastle United league-table row (second in the roster). -/
def ncRow : RawRow :=
  ⟨"Newcastle United", .num 30, .num 12, .num 6, .num 12, .num 40, .num 45,
   .num (-5), .num 42⟩

/-- A provider whose 2024/2025 table holds both United clubs. -/
def provider9 : Provider := fun code s =>
  if code == "ENG-Premier League" && s == "2024/2025" then .ok [muRow, ncRow]
  else .ok []

/-- The season record `rowStats` builds from `muRow`. -/
def muStat : Stats :=
  ⟨"2024/2025", "England", "Manchester United", 30, 15, 10, 5, 60, 30, 30, 55,
   50, 2, 1⟩

/-- FBref standard row for Newcastle United (matches the query
"united" by substring containment). -/
def fbStd9 : FbrefRow :=
  ⟨"Premier League", "2024-2025", "Newcastle United", 38, 10, 10, 18, 40, 60,
   -20, 40, 0, 0, 0⟩

/-- FBref possession row for Newcastle United with possession 42. -/
def fbPoss9 : FbrefRow :=
  ⟨"Premier League", "2024-2025", "Newcastle United", 38, 0, 0, 0, 0, 0, 0, 0,
   42, 0, 0⟩

/-- FBref shooting row for Newcastle United: 380 shots, 190 on target
(divided by the standard row's 38 matches: 10 and 5 per game). -/
def fbShot9 : FbrefRow :=
  ⟨"Premier League", "2024-2025", "Newcastle United", 38, 0, 0, 0, 0, 0, 0, 0,
   0, 380, 190⟩

/-- FBref tables containing the Newcastle standard, possession and
shooting rows (all four merge columns present). -/
def tables9 : FbrefTables := ⟨[fbStd9], [fbPoss9], [fbShot9]⟩

/-- The `season_data` record built from `tables9` for 2024-2025. -/
def d9 : DetRow :=
  ⟨some "2024-2025", some "Newcastle United", some "Premier League", some 38,
   some 10, some 10, some 18, some 40, some 60, some (-20), some 40, some 42,
   some 10, some 5⟩

/-- The same FBref tables with an empty shooting table: no season dict
ever gets the shots keys, so the shots columns are absent from the
detailed frame. -/
def tables9ns : FbrefTables := ⟨[fbStd9], [fbPoss9], []⟩

/-- The `season_data` record built from `tables9ns` for 2024-2025. -/
def d9ns : DetRow :=
  ⟨some "2024-2025", some "Newcastle United", some "Premier League", some 38,
   some 10, some 10, some 18, some 40, some 60, some (-20), some 40, some 42,
   none, none⟩

/-- FBref standard row reporting zero matches played. -/
def fbStd10 : FbrefRow :=
  ⟨"Premier League", "2024-2025", "Arsenal", 0, 0, 0, 0, 0, 0, 0, 0, 0, 0, 0⟩

/-- FBref shooting row for the same team and season. -/
def fbShot10 : FbrefRow :=
  ⟨"Premier League", "2024-2025", "Arsenal", 0, 0, 0, 0, 0, 0, 0, 0, 0, 10, 4⟩

/-- FBref tables with a shooting row but `Matches_Played = 0`. -/
def tables10 : FbrefTables := ⟨[fbStd10], [], [fbShot10]⟩

/-- Empty FBref tables: the detailed fetch yields no data at all. -/
def fbEmpty : FbrefTables := ⟨[], [], []⟩

/-- A season "yields a matching fast-source row": the fetch succeeds
and a row with the resolved name exists — regardless of whether that
row's numeric fields later parse. -/
def seasonHasMatch (provider : Provider) (code name s : String) : Bool :=
  match provider code s with
  | .error _ => false
  | .ok table => (table.find? (fun r => r.team == name)).isSome

/-! ## Helper lemmas -/

theorem le_roundHalfEven {n : ℤ} {q : ℚ} (h : (n : ℚ) ≤ q) :
    n ≤ roundHalfEven q := by
  have hf : n ≤ ⌊q⌋ := Int.le_floor.mpr h
  unfold roundHalfEven
  split_ifs <;> omega

theorem roundHalfEven_le {n : ℤ} {q : ℚ} (h : q ≤ (n : ℚ)) :
    roundHalfEven q ≤ n := by
  have hf : ⌊q⌋ ≤ n := by
    have := Int.floor_le_floor h
    simpa using this
  have hfl : (⌊q⌋ : ℚ) ≤ q := Int.floor_le q
  unfold roundHalfEven
  split_ifs with h1 h2 h3
  · exact hf
  · have hlt : (⌊q⌋ : ℚ) + 1/2 < q := by linarith
    have : (⌊q⌋ : ℚ) < (n : ℚ) := by linarith
    have : ⌊q⌋ < n := by exact_mod_cast this
    omega
  · exact hf
  · have hge : (1 : ℚ)/2 ≤ q - ⌊q⌋ := le_of_not_lt h1
    have : (⌊q⌋ : ℚ) < (n : ℚ) := by linarith
    have : ⌊q⌋ < n := by exact_mod_cast this
    omega

theorem le_pyRound {n : ℤ} {q : ℚ} {d : ℕ} (h : (n : ℚ) ≤ q) :
    (n : ℚ) ≤ pyRound q d := by
  have hp : (0 : ℚ) < 10 ^ d := by positivity
  unfold pyRound
  rw [le_div_iff₀ hp]
  have h1 : ((n * 10 ^ d : ℤ) : ℚ) ≤ q * 10 ^ d := by
    push_cast
    exact mul_le_mul_of_nonneg_right h hp.le
  have h2 := le_roundHalfEven h1
  exact_mod_cast h2

theorem pyRound_le {n : ℤ} {q : ℚ} {d : ℕ} (h : q ≤ (n : ℚ)) :
    pyRound q d ≤ (n : ℚ) := by
  have hp : (0 : ℚ) < 10 ^ d := by positivity
  unfold pyRound
  rw [div_le_iff₀ hp]
  have h1 : q * 10 ^ d ≤ ((n * 10 ^ d : ℤ) : ℚ) := by
    push_cast
    exact mul_le_mul_of_nonneg_right h hp.le
  have h2 := roundHalfEven_le h1
  exact_mod_cast h2

theorem winPercentageChecked_isSome (mpC wC : Option ℚ) :
    (winPercentageChecked mpC wC).isSome := by
  unfold winPercentageChecked
  cases mpC with
  | none => simp
  | some m =>
    cases wC with
    | none => simp
    | some w =>
      simp only
      split_ifs with hm
      · have : m ≠ 0 := ne_of_gt hm
        simp [pyDiv, this]
      · simp

theorem perGameChecked_isSome (mpC gC : Option ℚ) :
    (perGameChecked mpC gC).isSome := by
  unfold perGameChecked
  cases mpC with
  | none => simp
  | some m =>
    cases gC with
    | none => simp
    | some g =>
      simp only
      split_ifs with hm
      · have : m ≠ 0 := ne_of_gt hm
        simp [pyDiv, this]
      · simp

theorem rowStats_some_spec {season league : String} {r : RawRow} {st : Stats}
    (h : rowStats season league r = some st) :
    st.season = season ∧ st.team = r.team ∧
    st.matchesPlayed = intOfCoerced (toNumeric r.mp) ∧
    st.goalsFor = intOfCoerced (toNumeric r.gf) ∧
    st.goalsAgainst = intOfCoerced (toNumeric r.ga) ∧
    pyIntField r.gd = some st.goalDifference ∧
    pyIntField r.pts = some st.points ∧
    winPercentageChecked (toNumeric r.mp) (toNumeric r.w) = some st.winPercentage ∧
    perGameChecked (toNumeric r.mp) (toNumeric r.gf) = some st.goalsPerGame ∧
    perGameChecked (toNumeric r.mp) (toNumeric r.ga) = some st.goalsAgainstPerGame ∧
    pyIntField r.w = some st.wins ∧
    pyIntField r.d = some st.draws ∧
    pyIntField r.l = some st.losses := by
  unfold rowStats at h
  split at h
  next wins draws losses gd pts wp gpg gapg h1 h2 h3 h4 h5 h6 h7 h8 =>
    injection h with h
    subst h
    exact ⟨rfl, rfl, rfl, rfl, rfl, h4, h5, h6, h7, h8, h1, h2, h3⟩
  next => exact absurd h (by simp)

theorem seasons_loop_eq_filterMap (provider : Provider)
    (code name league : String) (l : List String) :
    seasons_loop provider code name league l =
      l.filterMap (fun s => processSeason (provider code s) name league s) := by
  induction l with
  | nil => rfl
  | cons s rest ih =>
    unfold seasons_loop
    cases h : processSeason (provider code s) name league s <;>
      simp [List.filterMap_cons, h, ih]

theorem length_filterMap_eq_countP {α β : Type} (f : α → Option β) (l : List α) :
    (l.filterMap f).length = l.countP (fun a => (f a).isSome) := by
  induction l with
  | nil => rfl
  | cons a rest ih =>
    cases h : f a <;>
      simp [List.filterMap_cons, h, List.countP_cons, ih]

theorem map_filterMap_eq_filter {α β : Type} (f : α → Option β) (g : β → α)
    (l : List α) (hg : ∀ a b, f a = some b → g b = a) :
    (l.filterMap f).map g = l.filter (fun a => (f a).isSome) := by
  induction l with
  | nil => rfl
  | cons a rest ih =>
    cases h : f a with
    | none => simp [List.filterMap_cons, h, List.filter_cons, ih]
    | some b =>
      simp [List.filterMap_cons, h, List.filter_cons, ih, hg a b h]

theorem processSeason_some_season {tbl : Except Unit (List RawRow)}
    {name league s : String} {st : Stats}
    (h : processSeason tbl name league s = some st) : st.season = s := by
  unfold processSeason processSeasonLogged at h
  cases tbl with
  | error e => simp at h
  | ok table =>
    simp only at h
    cases hf : table.find? (fun r => r.team == name) with
    | none => rw [hf] at h; simp at h
    | some row =>
      rw [hf] at h
      cases hr : rowStats s league row with
      | none => simp [hr] at h
      | some st0 =>
        have hss := (rowStats_some_spec hr).1
        simp [hr] at h
        subst h
        exact hss

theorem report_from_branch {provider : Provider} {league team : String}
    {l : List Stats}
    (h : get_team_league_table_stats provider league team = .report l) :
    ∃ code name,
      league_mappings.lookup (pyLower league) = some code ∧
      find_team_match provider league team = .ok (some name) ∧
      l = reportRows provider code name league := by
  unfold get_team_league_table_stats at h
  cases hc : league_mappings.lookup (pyLower league) with
  | none => rw [hc] at h; simp at h
  | some code =>
    rw [hc] at h
    cases hm : find_team_match provider league team with
    | error ks => rw [hm] at h; simp at h
    | ok o =>
      rw [hm] at h
      cases o with
      | none => simp at h
      | some name =>
        simp only at h
        split_ifs at h with he
        injection h with h
        refine ⟨code, name, rfl, rfl, ?_⟩
        rw [← h]
        exact seasons_loop_eq_filterMap provider code name league seasons

theorem report_mem_season {provider : Provider} {league team : String}
    {l : List Stats}
    (h : get_team_league_table_stats provider league team = .report l) :
    ∀ st ∈ l, st.season ∈ seasons := by
  obtain ⟨code, name, _, _, hl⟩ := report_from_branch h
  intro st hst
  rw [hl] at hst
  unfold reportRows at hst
  obtain ⟨s, hs, hps⟩ := List.mem_filterMap.mp hst
  rw [processSeason_some_season hps]
  exact hs

theorem fbref_loop_mem {tables : FbrefTables} {ln query : String}
    {ss : List String} {l : List DetRow}
    (h : fbref_loop tables ln query ss = some l) :
    ∀ d ∈ l, ∃ s ∈ ss, fbrefSeasonData tables ln query s = some (some d) := by
  induction ss generalizing l with
  | nil =>
    unfold fbref_loop at h
    injection h with h
    subst h
    intro d hd
    simp at hd
  | cons s rest ih =>
    unfold fbref_loop at h
    cases hs : fbrefSeasonData tables ln query s with
    | none => rw [hs] at h; simp at h
    | some o =>
      rw [hs] at h
      cases o with
      | none =>
        intro d hd
        obtain ⟨s', hs', hd'⟩ := ih h d hd
        exact ⟨s', List.mem_cons_of_mem s hs', hd'⟩
      | some d0 =>
        simp only [Option.map_eq_some'] at h
        obtain ⟨l0, hl0, hcons⟩ := h
        subst hcons
        intro d hd
        rcases List.mem_cons.mp hd with hd | hd
        · subst hd
          exact ⟨s, List.mem_cons_self s rest, hs⟩
        · obtain ⟨s', hs', hd'⟩ := ih hl0 d hd
          exact ⟨s', List.mem_cons_of_mem s hs', hd'⟩

theorem fbrefSeasonData_some_season {tables : FbrefTables}
    {ln query season : String} {d : DetRow}
    (h : fbrefSeasonData tables ln query season = some (some d)) :
    d.season = none ∨ d.season = some season := by
  unfold fbrefSeasonData at h
  cases hsh : fbrefFind tables.shooting ln season query with
  | none =>
    rw [hsh] at h
    split_ifs at h with hno
    · simp at h
    · injection h with h
      injection h with h
      subst h
      cases fbrefFind tables.standard ln season query <;> simp
  | some sr =>
    rw [hsh] at h
    simp only at h
    cases h1 : pyDiv sr.sh (match fbrefFind tables.standard ln season query with
        | some r => r.mp
        | none => 1) with
    | none => rw [h1] at h; simp at h
    | some spg =>
      rw [h1] at h
      cases h2 : pyDiv sr.sot (match fbrefFind tables.standard ln season query with
          | some r => r.mp
          | none => 1) with
      | none => rw [h2] at h; simp at h
      | some sotg =>
        rw [h2] at h
        simp only at h
        injection h with h
        injection h with h
        subst h
        cases fbrefFind tables.standard ln season query <;> simp

theorem get_fbref_rows_spec {tables : FbrefTables} {league query : String}
    {det : List DetRow}
    (h : get_fbref_team_stats tables league query = some det) :
    det ≠ [] ∧
    ∀ d ∈ det, d.season = none ∨ ∃ s ∈ advSeasons, d.season = some s := by
  unfold get_fbref_team_stats at h
  cases hc : fbref_league_mappings.lookup (pyLower league) with
  | none => rw [hc] at h; simp at h
  | some ln =>
    rw [hc] at h
    cases hl : fbref_loop tables ln query advSeasons with
    | none => simp [hl] at h
    | some l =>
      simp only [hl] at h
      split_ifs at h with he
      injection h with h
      subst h
      refine ⟨by simpa using he, ?_⟩
      intro d hd
      obtain ⟨s, hs, hsd⟩ := fbref_loop_mem hl d hd
      rcases fbrefSeasonData_some_season hsd with h0 | h0
      · exact Or.inl h0
      · exact Or.inr ⟨s, hs, h0⟩

theorem seasons_adv_disjoint :
    ∀ s1 ∈ seasons, ∀ s2 ∈ advSeasons, s1 ≠ s2 := by decide

theorem mergeRow_of_no_match {det : List DetRow} {st : Stats}
    (h : ∀ d ∈ det, (d.season == some st.season) = false) :
    mergeRow det st =
      { stats := st
        avgPossession := some (estimatePossessionHybrid (st.goalDifference : ℚ))
        shotsPerGame := some (st.goalsPerGame * 6)
        shotsOnTargetPerGame := some (st.goalsPerGame * 6 * (7/20)) } := by
  unfold mergeRow
  have hf : det.find? (fun r => r.season == some st.season) = none :=
    List.find?_eq_none.mpr (fun d hd => by simp [h d hd])
  rw [hf]
  rfl

theorem winPercentageChecked_zero (wC : Option ℚ) :
    winPercentageChecked (some 0) wC = some 0 := by
  cases wC with
  | none => rfl
  | some w =>
    show (if (0 : ℚ) < 0 then (pyDiv w 0).map (fun q => pyRound (q * 100) 1)
          else some 0) = some 0
    rw [if_neg (lt_irrefl (0 : ℚ))]

theorem perGameChecked_zero (gC : Option ℚ) :
    perGameChecked (some 0) gC = some 0 := by
  cases gC with
  | none => rfl
  | some g =>
    show (if (0 : ℚ) < 0 then (pyDiv g 0).map (fun q => pyRound q 2)
          else some 0) = some 0
    rw [if_neg (lt_irrefl (0 : ℚ))]

theorem perGameChecked_none (mpC : Option ℚ) :
    perGameChecked mpC none = some 0 := by
  cases mpC <;> rfl

theorem rowStats_none_of_bad_w (season league : String) (r : RawRow)
    (hw : r.w = RawVal.bad) : rowStats season league r = none := by
  cases hrs : rowStats season league r with
  | none => rfl
  | some st =>
    have hwins := (rowStats_some_spec hrs).2.2.2.2.2.2.2.2.2.2.1
    rw [hw] at hwins
    simp [pyIntField, notna, pyInt] at hwins

theorem fbref_loop_none_of_mem {tables : FbrefTables} {ln query s : String}
    {ss : List String} (hs : s ∈ ss)
    (hsd : fbrefSeasonData tables ln query s = none) :
    fbref_loop tables ln query ss = none := by
  induction ss with
  | nil => simp at hs
  | cons a rest ih =>
    unfold fbref_loop
    rcases List.mem_cons.mp hs with h | h
    · rw [← h, hsd]
    · cases ha : fbrefSeasonData tables ln query a with
      | none => rfl
      | some o =>
        cases o with
        | none => exact ih h
        | some d => rw [ih h]; rfl

theorem rowStats_arsRow (s : String) :
    rowStats s "england" arsRow = some (stArs s) := by
  unfold rowStats arsRow stArs
  norm_num +decide [pyIntField, notna, pyInt, pytrunc, toNumeric,
    winPercentageChecked, perGameChecked, pyDiv, intOfCoerced, pyRound,
    roundHalfEven, pyTitle, pyTitleGo]

theorem rowStats_muRow :
    rowStats "2024/2025" "england" muRow = some muStat := by
  unfold rowStats muRow muStat
  norm_num +decide [pyIntField, notna, pyInt, pytrunc, toNumeric,
    winPercentageChecked, perGameChecked, pyDiv, intOfCoerced, pyRound,
    roundHalfEven, pyTitle, pyTitleGo]

theorem rowStats_mmRow (s league : String) :
    rowStats s league mmRow = some (stMm s (pyTitle league)) := by
  unfold rowStats mmRow stMm
  norm_num +decide [pyIntField, notna, pyInt, pytrunc, toNumeric,
    winPercentageChecked, perGameChecked, pyDiv, intOfCoerced, pyRound,
    roundHalfEven]

/-! ## Claim theorems -/

/-- The spec's description of team resolution (section 4.2), written as
an `orElse` chain of the three matching stages: case-insensitive exact
match, case-insensitive substring match in either direction, then the
nickname alias table, whose mapped name is accepted only when it
appears in the fetched roster. -/
def resolveSpec (available : List String) (team_input : String) : Option String :=
  (available.find? (fun t => (pyLower t) == (pyLower team_input))).orElse (fun _ =>
    (available.find? (fun t =>
        substrOf (pyLower team_input) (pyLower t) ||
        substrOf (pyLower t) (pyLower team_input))).orElse (fun _ =>
      (team_variations.lookup (pyLower team_input)).bind
        (fun suggested =>
          if available.contains suggested then some suggested else none)))

/-- C7: the matching core of `find_team_match` tries, in order and
short-circuiting on the first hit, case-insensitive exact match,
case-insensitive substring match in either direction, then the fixed
alias table with its mapped name accepted only when it is in the
roster, and returns `none` when no step matches; "spurs" resolves to
"Tottenham Hotspur" exactly when that name is in the roster. -/
theorem C7_resolution_order :
    (∀ available team_input,
      find_team_match_core available team_input = resolveSpec available team_input) ∧
    find_team_match_core ["Tottenham Hotspur", "Arsenal"] "spurs" =
      some "Tottenham Hotspur" ∧
    find_team_match_core ["Arsenal", "Chelsea"] "spurs" = none := by
  refine ⟨?_, by decide, by decide⟩
  intro available team_input
  unfold find_team_match_core resolveSpec
  cases available with
  | nil => simp
  | cons a rest =>
    simp only [List.isEmpty_cons, Bool.false_eq_true, if_false]
    cases h1 : (a :: rest).find? (fun t => (pyLower t) == (pyLower team_input)) with
    | some t => simp [Option.orElse]
    | none =>
      cases h2 : (a :: rest).find? (fun t =>
          substrOf (pyLower team_input) (pyLower t) ||
          substrOf (pyLower t) (pyLower team_input)) with
      | some t => simp [Option.orElse]
      | none =>
        cases h3 : team_variations.lookup (pyLower team_input) with
        | some suggested => simp [Option.orElse]
        | none => simp [Option.orElse]

/-- C5: on a fast-source row with zero matches played the computed win
percentage, goals-per-game and goals-against-per-game are all `0`, and
the guarded ratio computations never hit a division by zero (`isSome`)
for any input row. -/
theorem C5_zero_matches_no_div :
    (∀ season league r st, rowStats season league r = some st →
        r.mp = RawVal.num 0 →
        st.winPercentage = 0 ∧ st.goalsPerGame = 0 ∧
        st.goalsAgainstPerGame = 0) ∧
    (∀ mpC gC : Option ℚ,
        (winPercentageChecked mpC gC).isSome ∧ (perGameChecked mpC gC).isSome) := by
  constructor
  · intro season league r st h hmp
    obtain ⟨-, -, -, -, -, -, -, hwp, hgpg, hgapg, -, -, -⟩ := rowStats_some_spec h
    rw [hmp] at hwp hgpg hgapg
    simp only [toNumeric] at hwp hgpg hgapg
    rw [winPercentageChecked_zero] at hwp
    rw [perGameChecked_zero] at hgpg hgapg
    injection hwp with h1
    injection hgpg with h2
    injection hgapg with h3
    exact ⟨h1.symm, h2.symm, h3.symm⟩
  · intro mpC gC
    exact ⟨winPercentageChecked_isSome mpC gC, perGameChecked_isSome mpC gC⟩

/-- C5 witness: a concrete all-zero row evaluates through the theorem. -/
theorem C5_witness :
    rowStats "2024/2025" "england" zRow = some stZ ∧
    (stZ.winPercentage = 0 ∧ stZ.goalsPerGame = 0 ∧
      stZ.goalsAgainstPerGame = 0) ∧
    (winPercentageChecked (some 0) (some 0)).isSome ∧
    (perGameChecked (some 0) (some 0)).isSome :=
  ⟨by decide,
   C5_zero_matches_no_div.1 "2024/2025" "england" zRow stZ (by decide) rfl,
   C5_zero_matches_no_div.2 (some 0) (some 0)⟩

/-- C4 counterexample: a season whose `W` cell fails to parse as a
number is skipped, not included: with the unparseable row in 2024/2025
and a clean row in 2023/2024, the report contains only 2023/2024. -/
theorem C4_counterexample :
    badWRow.w = RawVal.bad ∧
    rowStats "2024/2025" "england" badWRow = none ∧
    get_team_league_table_stats provider4 "england" "arsenal" =
      .report [stArs "2023/2024"] := by
  refine ⟨rfl, rowStats_none_of_bad_w _ _ _ rfl, ?_⟩
  have hl : league_mappings.lookup (pyLower "england") =
      some "ENG-Premier League" := by decide
  have hm : find_team_match provider4 "england" "arsenal" =
      .ok (some "Arsenal") := by rfl
  norm_num +decide [get_team_league_table_stats, hl, hm, get_available_teams,
    provider4, seasons, seasons_loop, processSeason, processSeasonLogged,
    rowStats_none_of_bad_w, rowStats_arsRow]

/-- C4 (amended): only `MP`, `GF` and `GA` go through the
`pd.to_numeric` coercion, so an unparseable value there becomes zero
while the season is still included; `W`, `D`, `L`, `GD` and `Pts` are
passed raw to `int(...)`, so an unparseable value there raises and the
per-season handler skips the whole season. -/
theorem C4_coercion_vs_raw_int :
    (∀ season league r st, rowStats season league r = some st →
        r.mp = RawVal.bad → st.matchesPlayed = 0) ∧
    (∀ season league r st, rowStats season league r = some st →
        r.gf = RawVal.bad → st.goalsFor = 0 ∧ st.goalsPerGame = 0) ∧
    (∀ season league r st, rowStats season league r = some st →
        r.ga = RawVal.bad → st.goalsAgainst = 0 ∧ st.goalsAgainstPerGame = 0) ∧
    (∀ season league r, r.w = RawVal.bad → rowStats season league r = none) ∧
    (∀ table name league s r,
        table.find? (fun x => x.team == name) = some r → r.w = RawVal.bad →
        processSeason (.ok table) name league s = none) := by
  refine ⟨?_, ?_, ?_, ?_, ?_⟩
  · intro season league r st h hmp
    have hmp' := (rowStats_some_spec h).2.2.1
    rw [hmp] at hmp'
    simpa [toNumeric, intOfCoerced] using hmp'
  · intro season league r st h hgf
    obtain ⟨-, -, -, hgf', -, -, -, -, hgpg, -, -, -, -⟩ := rowStats_some_spec h
    rw [hgf] at hgf' hgpg
    simp only [toNumeric] at hgf' hgpg
    rw [perGameChecked_none] at hgpg
    injection hgpg with h2
    exact ⟨by simpa [intOfCoerced] using hgf', h2.symm⟩
  · intro season league r st h hga
    obtain ⟨-, -, -, -, hga', -, -, -, -, hgapg, -, -, -⟩ := rowStats_some_spec h
    rw [hga] at hga' hgapg
    simp only [toNumeric] at hga' hgapg
    rw [perGameChecked_none] at hgapg
    injection hgapg with h2
    exact ⟨by simpa [intOfCoerced] using hga', h2.symm⟩
  · intro season league r hw
    exact rowStats_none_of_bad_w season league r hw
  · intro table name league s r hf hw
    unfold processSeason processSeasonLogged
    simp only
    rw [hf]
    simp [rowStats_none_of_bad_w s league r hw]

/-- C4 witness: concrete rows exercising both halves of the amended
claim — an unparseable `MP` yields a record with zero matches played,
and an unparseable `W` makes `rowStats` fail. -/
theorem C4_witness :
    rowStats "2024/2025" "england"
        ⟨"Arsenal", .bad, .num 5, .num 3, .num 2, .num 20, .num 10, .num 10, .num 18⟩ =
      some ⟨"2024/2025", "England", "Arsenal", 0, 5, 3, 2, 20, 10, 10, 18, 0, 0, 0⟩ ∧
    (⟨"2024/2025", "England", "Arsenal", 0, 5, 3, 2, 20, 10, 10, 18, 0, 0, 0⟩ :
        Stats).matchesPlayed = 0 ∧
    rowStats "2021/2022" "spain" badWRow = none := by
  have h1 : rowStats "2024/2025" "england"
      ⟨"Arsenal", .bad, .num 5, .num 3, .num 2, .num 20, .num 10, .num 10, .num 18⟩ =
      some ⟨"2024/2025", "England", "Arsenal", 0, 5, 3, 2, 20, 10, 10, 18, 0, 0, 0⟩ := by
    decide
  exact ⟨h1,
    C4_coercion_vs_raw_int.1 "2024/2025" "england" _ _ h1 rfl,
    C4_coercion_vs_raw_int.2.2.2.1 "2021/2022" "spain" badWRow rfl⟩

/-- C3 counterexample: when every provider call raises, the roster is
silently replaced by the empty list and the pipeline reports
`teamNotFound []`, not `sourceUnavailable`. -/
theorem C3_counterexample :
    get_team_league_table_stats failProvider "england" "arsenal" =
      .teamNotFound [] ∧
    Outcome.teamNotFound [] ≠ Outcome.sourceUnavailable := by
  exact ⟨by decide, by decide⟩

/-- C3 (amended): a roster fetch failure is caught inside
`get_available_teams` and converted to an empty roster, so resolution
fails as `teamNotFound` (with an empty available-team list); no
`sourceUnavailable`-style failure is ever produced. -/
theorem C3_roster_failure_is_teamNotFound (provider : Provider)
    (league team code : String)
    (h1 : league_mappings.lookup (pyLower league) = some code)
    (h2 : provider code "2024/2025" = .error ()) :
    get_team_league_table_stats provider league team = .teamNotFound [] := by
  have hga : get_available_teams provider league = .ok [] := by
    unfold get_available_teams
    simp only [h1, h2]
  have hm : find_team_match provider league team = .ok none := by
    unfold find_team_match
    simp only [hga]
    rfl
  unfold get_team_league_table_stats
  simp only [h1, hm, hga]

/-- C3 witness: the amended claim evaluated on the always-failing
provider with a different league alias. -/
theorem C3_witness :
    get_team_league_table_stats failProvider "epl" "chelsea" =
      .teamNotFound [] :=
  C3_roster_failure_is_teamNotFound failProvider "epl" "chelsea"
    "ENG-Premier League" rfl rfl

theorem winPercentageChecked_some_some (m w : ℚ) :
    winPercentageChecked (some m) (some w) =
      if 0 < m then (pyDiv w m).map (fun q => pyRound (q * 100) 1)
      else some 0 := rfl

/-- C6 counterexample: the win percentage has no clamp — a row with
two wins in one match (provider data is trusted as-is) produces a win
percentage of 200, outside `[0, 100]`. -/
theorem C6_counterexample :
    (rowStats "2024/2025" "england" wp200Row).map Stats.winPercentage =
      some 200 ∧
    ¬ ((200 : ℚ) ≤ 100) := by
  constructor
  · have h : rowStats "2024/2025" "england" wp200Row =
        some ⟨"2024/2025", "England", "Arsenal", 1, 2, 0, 0, 3, 1, 2, 6,
              200, 3, 1⟩ := by
      unfold rowStats wp200Row
      norm_num +decide [pyIntField, notna, pyInt, pytrunc, toNumeric,
        winPercentageChecked, perGameChecked, pyDiv, intOfCoerced, pyRound,
        roundHalfEven, pyTitle, pyTitleGo]
    rw [h]
    rfl
  · norm_num

/-- C6 (amended): the win percentage lies in `[0, 100]` for every
computed row whose wins lie between `0` and the matches played (the
code itself never enforces that provider invariant); the possession
estimate is clamped into `[35, 65]` in both estimation paths. -/
theorem C6_bounds :
    (∀ season league r st m w, rowStats season league r = some st →
        r.mp = RawVal.num m → r.w = RawVal.num w → 0 ≤ w → w ≤ m →
        0 ≤ st.winPercentage ∧ st.winPercentage ≤ 100) ∧
    (∀ gd pts : ℚ, 35 ≤ estimatePossessionEnhanced gd pts ∧
        estimatePossessionEnhanced gd pts ≤ 65) ∧
    (∀ gd : ℚ, 35 ≤ estimatePossessionHybrid gd ∧
        estimatePossessionHybrid gd ≤ 65) := by
  refine ⟨?_, ?_, ?_⟩
  · intro season league r st m w h hm hw h0 hwm
    have hwp := (rowStats_some_spec h).2.2.2.2.2.2.2.1
    rw [hm, hw] at hwp
    simp only [toNumeric] at hwp
    rw [winPercentageChecked_some_some] at hwp
    by_cases hpos : 0 < m
    · rw [if_pos hpos] at hwp
      have hne : m ≠ 0 := ne_of_gt hpos
      simp only [pyDiv, if_neg hne, Option.map_some'] at hwp
      injection hwp with hwp
      rw [← hwp]
      have hx0 : (0 : ℚ) ≤ w / m * 100 := by positivity
      have hx100 : w / m * 100 ≤ 100 := by
        have h1 : w / m ≤ 1 := (div_le_one hpos).mpr hwm
        nlinarith
      constructor
      · have := le_pyRound (n := 0) (d := 1) (by exact_mod_cast hx0)
        simpa using this
      · have := pyRound_le (n := 100) (d := 1) (by exact_mod_cast hx100)
        simpa using this
    · rw [if_neg hpos] at hwp
      injection hwp with hwp
      rw [← hwp]
      norm_num
  · intro gd pts
    unfold estimatePossessionEnhanced
    constructor
    · have h35 : ((35 : ℤ) : ℚ) ≤
          min 65 (max 35 (50 + gd * (3/10) + pts * (1/10))) := by
        push_cast
        exact le_min (by norm_num) (le_max_left _ _)
      have := le_pyRound (d := 1) h35
      simpa using this
    · have h65 : min 65 (max 35 (50 + gd * (3/10) + pts * (1/10))) ≤
          ((65 : ℤ) : ℚ) := by
        push_cast
        exact min_le_left _ _
      have := pyRound_le (d := 1) h65
      simpa using this
  · intro gd
    unfold estimatePossessionHybrid
    exact ⟨le_min (by norm_num) (le_max_left _ _), min_le_left _ _⟩

/-- C6 witness: the amended bound evaluated on the Arsenal row and on
a concrete estimated possession. -/
theorem C6_witness :
    (0 ≤ (stArs "2024/2025").winPercentage ∧
      (stArs "2024/2025").winPercentage ≤ 100) ∧
    (35 ≤ estimatePossessionEnhanced 10 18 ∧
      estimatePossessionEnhanced 10 18 ≤ 65) :=
  ⟨C6_bounds.1 "2024/2025" "england" arsRow (stArs "2024/2025") 10 5
      (rowStats_arsRow "2024/2025") rfl rfl (by norm_num) (by norm_num),
   C6_bounds.2.1 10 18⟩

/-- C8 counterexample: a row whose goal difference (100) disagrees
with GF - GA (5) is processed without any data-quality warning: the
season succeeds with an empty log and the inconsistent value is kept. -/
theorem C8_counterexample :
    processSeasonLogged (.ok [mmRow]) "Arsenal" "england" "2024/2025" =
      (some (stMm "2024/2025" "England"), []) ∧
    (stMm "2024/2025" "England").goalDifference = 100 ∧
    (stMm "2024/2025" "England").goalsFor -
      (stMm "2024/2025" "England").goalsAgainst = 5 ∧
    ((100 : ℤ) ≠ 5) := by
  refine ⟨?_, rfl, rfl, by decide⟩
  have h := rowStats_mmRow "2024/2025" "england"
  rw [show pyTitle "england" = "England" from by decide] at h
  unfold processSeasonLogged
  have hf : [mmRow].find? (fun r => r.team == "Arsenal") = some mmRow := by
    decide
  simp only [hf, h]

/-- C8 (amended): the pipeline performs no goal-difference consistency
check at all: any successfully parsed row — including one whose goal
difference disagrees with GF - GA — is included with an empty log
(no warning) and its `GD` cell is copied as-is. -/
theorem C8_no_consistency_check (table : List RawRow) (name league s : String)
    (r : RawRow) (st : Stats)
    (hf : table.find? (fun x => x.team == name) = some r)
    (hr : rowStats s league r = some st)
    (_hmm : st.goalDifference ≠ st.goalsFor - st.goalsAgainst) :
    processSeasonLogged (.ok table) name league s = (some st, []) ∧
    ∀ q, r.gd = RawVal.num q → st.goalDifference = pytrunc q := by
  constructor
  · unfold processSeasonLogged
    simp only [hf, hr]
  · intro q hq
    have hgd := (rowStats_some_spec hr).2.2.2.2.2.1
    rw [hq] at hgd
    simp only [pyIntField, notna, pyInt, if_true] at hgd
    injection hgd with h0
    exact h0.symm

/-- C8 witness: the amended claim applied to the inconsistent row in a
different league and season. -/
theorem C8_witness :
    processSeasonLogged (.ok [mmRow]) "Arsenal" "spain" "2021/2022" =
      (some (stMm "2021/2022" "Spain"), []) ∧
    (stMm "2021/2022" "Spain").goalDifference = pytrunc 100 := by
  have hr := rowStats_mmRow "2021/2022" "spain"
  rw [show pyTitle "spain" = "Spain" from by decide] at hr
  have h := C8_no_consistency_check [mmRow] "Arsenal" "spain" "2021/2022"
    mmRow (stMm "2021/2022" "Spain") (by decide) hr (by decide)
  exact ⟨h.1, h.2 100 rfl⟩

theorem report_provider3 :
    get_team_league_table_stats provider3 "england" "arsenal" =
      .report [stArs "2024/2025", stArs "2023/2024", stArs "2022/2023"] := by
  have hl : league_mappings.lookup (pyLower "england") =
      some "ENG-Premier League" := by decide
  have hm : find_team_match provider3 "england" "arsenal" =
      .ok (some "Arsenal") := by rfl
  norm_num +decide [get_team_league_table_stats, hl, hm, get_available_teams,
    provider3, seasons, seasons_loop, processSeason, processSeasonLogged,
    rowStats_arsRow]

theorem report_provider9 :
    get_team_league_table_stats provider9 "england" "united" =
      .report [muStat] := by
  have hl : league_mappings.lookup (pyLower "england") =
      some "ENG-Premier League" := by decide
  have hm : find_team_match provider9 "england" "united" =
      .ok (some "Manchester United") := by rfl
  norm_num +decide [get_team_league_table_stats, hl, hm, get_available_teams,
    provider9, seasons, seasons_loop, processSeason, processSeasonLogged,
    rowStats_muRow]

theorem get_fbref_tables9 :
    get_fbref_team_stats tables9 "england" "united" = some [d9] := by
  have hlf : fbref_league_mappings.lookup (pyLower "england") =
      some "Premier League" := by decide
  have hs1 : fbrefFind tables9.shooting "Premier League" "2024-2025" "united" =
      some fbShot9 := by decide
  have hst1 : fbrefFind tables9.standard "Premier League" "2024-2025" "united" =
      some fbStd9 := by decide
  have hp1 : fbrefFind tables9.possession "Premier League" "2024-2025" "united" =
      some fbPoss9 := by decide
  have h2425 : fbrefSeasonData tables9 "Premier League" "united" "2024-2025" =
      some (some d9) := by
    unfold fbrefSeasonData
    rw [hs1]
    norm_num +decide [hst1, hp1, pyDiv, d9, fbStd9, fbPoss9, fbShot9]
  have hr1 : fbrefSeasonData tables9 "Premier League" "united" "2023-2024" =
      some none := by decide
  have hr2 : fbrefSeasonData tables9 "Premier League" "united" "2022-2023" =
      some none := by decide
  have hr3 : fbrefSeasonData tables9 "Premier League" "united" "2021-2022" =
      some none := by decide
  have hr4 : fbrefSeasonData tables9 "Premier League" "united" "2020-2021" =
      some none := by decide
  unfold get_fbref_team_stats
  simp [hlf, advSeasons, fbref_loop, h2425, hr1, hr2, hr3, hr4]

/-- C1 counterexample: when the detailed fetch yields no data at all,
`get_hybrid_team_stats` returns the basic rows unchanged — the
possession / shots / shots-on-target fields of the report are absent,
not estimated; and when the detailed data lacks the shots columns (no
shooting row matched in any season), the four-column selection before
the merge raises a `KeyError` instead of returning a report at all. -/
theorem C1_counterexample :
    get_hybrid_team_stats provider3 fbEmpty "england" "arsenal" =
      .ok (some [basicOnlyRow (stArs "2024/2025"),
                 basicOnlyRow (stArs "2023/2024"),
                 basicOnlyRow (stArs "2022/2023")]) ∧
    (basicOnlyRow (stArs "2024/2025")).avgPossession = none ∧
    (basicOnlyRow (stArs "2024/2025")).shotsPerGame = none ∧
    (basicOnlyRow (stArs "2024/2025")).shotsOnTargetPerGame = none ∧
    get_hybrid_team_stats provider9 tables9ns "england" "united" =
      .error () := by
  refine ⟨?_, rfl, rfl, rfl, ?_⟩
  · unfold get_hybrid_team_stats
    rw [report_provider3]
    rfl
  · unfold get_hybrid_team_stats
    rw [report_provider9]
    rfl

/-- C1 (amended): the guarded ratio computations of the basic merge
never raise a division by zero, and every advanced field of every
`mergeRow` output is populated (sourced or estimated); the hybrid path
returns the merged, fully populated rows exactly when the detailed
frame has all four merge columns, raises a `KeyError` when it lacks
one, and falls back to the basic rows (advanced fields absent) when
the detailed fetch produced no data at all. -/
theorem C1_merged_rows_populated :
    (∀ det st, ((mergeRow det st).avgPossession).isSome ∧
        ((mergeRow det st).shotsPerGame).isSome ∧
        ((mergeRow det st).shotsOnTargetPerGame).isSome) ∧
    (∀ mpC gC : Option ℚ,
        (winPercentageChecked mpC gC).isSome ∧ (perGameChecked mpC gC).isSome) ∧
    (∀ provider tables league team bs rows,
        basicOrNone (get_team_league_table_stats provider league team) =
          some bs →
        get_fbref_team_stats tables league team = some rows →
        (fbrefHasColumns rows = true →
          get_hybrid_team_stats provider tables league team =
            .ok (some (bs.map (mergeRow rows)))) ∧
        (fbrefHasColumns rows = false →
          get_hybrid_team_stats provider tables league team = .error ())) ∧
    (∀ provider tables league team bs,
        basicOrNone (get_team_league_table_stats provider league team) =
          some bs →
        get_fbref_team_stats tables league team = none →
        get_hybrid_team_stats provider tables league team =
          .ok (some (bs.map basicOnlyRow))) := by
  refine ⟨?_, ?_, ?_, ?_⟩
  · intro det st
    exact ⟨rfl, rfl, rfl⟩
  · intro mpC gC
    exact ⟨winPercentageChecked_isSome mpC gC, perGameChecked_isSome mpC gC⟩
  · intro provider tables league team bs rows hbo hd
    have hne := (get_fbref_rows_spec hd).1
    have hie : rows.isEmpty = false := by
      cases rows with
      | nil => exact absurd rfl hne
      | cons a t => rfl
    unfold get_hybrid_team_stats
    simp only [hbo, hd, hie]
    constructor
    · intro hc
      simp [hc]
    · intro hc
      simp [hc]
  · intro provider tables league team bs hbo hd
    unfold get_hybrid_team_stats
    simp only [hbo, hd]

/-- C1 witness: population and the three hybrid branches at concrete
inputs. -/
theorem C1_witness :
    ((mergeRow [d9] muStat).avgPossession).isSome ∧
    (winPercentageChecked (some 10) (some 5)).isSome ∧
    get_hybrid_team_stats provider9 tables9 "england" "united" =
      .ok (some ([muStat].map (mergeRow [d9]))) ∧
    get_hybrid_team_stats provider3 fbEmpty "england" "arsenal" =
      .ok (some ([stArs "2024/2025", stArs "2023/2024",
                  stArs "2022/2023"].map basicOnlyRow)) :=
  ⟨(C1_merged_rows_populated.1 [d9] muStat).1,
   (C1_merged_rows_populated.2.1 (some 10) (some 5)).1,
   (C1_merged_rows_populated.2.2.1 provider9 tables9 "england" "united"
      [muStat] [d9] (by rw [report_provider9]; rfl) get_fbref_tables9).1
     (by decide),
   C1_merged_rows_populated.2.2.2 provider3 fbEmpty "england" "arsenal"
     [stArs "2024/2025", stArs "2023/2024", stArs "2022/2023"]
     (by rw [report_provider3]; rfl) rfl⟩

/-- C10: if for any requested season the shooting table has a matching
row while the matching standard row reports zero matches played, the
per-game division raises, the function-level handler catches it, and
the entire detailed fetch returns `None` — every season's detailed
data is discarded. -/
theorem C10_division_by_zero_discards_all (tables : FbrefTables)
    (league query ln s : String) (r sr : FbrefRow)
    (h1 : fbref_league_mappings.lookup (pyLower league) = some ln)
    (h2 : s ∈ advSeasons)
    (h3 : fbrefFind tables.standard ln s query = some r)
    (h4 : r.mp = 0)
    (h5 : fbrefFind tables.shooting ln s query = some sr) :
    get_fbref_team_stats tables league query = none := by
  have hsd : fbrefSeasonData tables ln query s = none := by
    unfold fbrefSeasonData
    rw [h5]
    simp [h3, h4, pyDiv]
  have hloop : fbref_loop tables ln query advSeasons = none :=
    fbref_loop_none_of_mem h2 hsd
  unfold get_fbref_team_stats
  simp only [h1, hloop]

/-- C10 witness: the concrete tables with a shooting row and a
zero-`MP` standard row evaluate to `None`. -/
theorem C10_witness :
    get_fbref_team_stats tables10 "england" "arsenal" = none :=
  C10_division_by_zero_discards_all tables10 "england" "arsenal"
    "Premier League" "2024-2025" fbStd10 fbShot10
    (by decide) (by decide) (by decide) rfl (by decide)

/-- C9 counterexample: with FBref rows for "Newcastle United" (all
three stat types) matched by the raw query "united" — a different club
from the resolved fast-source team "Manchester United" — the hybrid
output row still carries the estimates (possession 59, shots 12), not
the FBref values (42 and 10): the left join on the season label
("2024/2025" vs "2024-2025") never matches, so no detailed field is
ever merged. -/
theorem C9_counterexample :
    get_hybrid_team_stats provider9 tables9 "england" "united" =
      .ok (some [{ stats := muStat, avgPossession := some 59,
                   shotsPerGame := some 12,
                   shotsOnTargetPerGame := some (21/5) }]) ∧
    fbrefFind tables9.possession "Premier League" "2024-2025" "united" =
      some fbPoss9 ∧
    fbPoss9.poss = 42 ∧
    ((59 : ℚ) ≠ 42) ∧
    fbrefFind tables9.shooting "Premier League" "2024-2025" "united" =
      some fbShot9 ∧
    d9.shotsPerGame = some 10 ∧
    ((12 : ℚ) ≠ 10) := by
  refine ⟨?_, by decide, rfl, by norm_num, by decide, rfl, by norm_num⟩
  unfold get_hybrid_team_stats
  rw [report_provider9]
  simp only [basicOrNone, get_fbref_tables9]
  have hfind : [d9].find? (fun r => r.season == some muStat.season) = none := by
    rfl
  norm_num +decide [mergeRow, hfind, estimatePossessionHybrid, muStat,
    fbrefHasColumns, d9]

/-- C9 (amended): the FBref rows are selected by case-insensitive
substring containment of the raw user query (`fbrefFind`), not by
equality with the resolved canonical name; but the season labels of
those rows (dash format) never equal a fast-source season label (slash
format), so when the merge runs (all four columns present) it finds no
detailed row for any season and every advanced field of every hybrid
output row is an estimate. -/
theorem C9_detail_rows_never_merge (provider : Provider)
    (tables : FbrefTables) (league team : String)
    (bs : List Stats) (det : List DetRow)
    (hb : get_team_league_table_stats provider league team = .report bs)
    (hd : get_fbref_team_stats tables league team = some det)
    (hcols : fbrefHasColumns det = true) :
    get_hybrid_team_stats provider tables league team =
      .ok (some (bs.map (mergeRow det))) ∧
    ∀ st ∈ bs, mergeRow det st =
      { stats := st
        avgPossession :=
          some (estimatePossessionHybrid (st.goalDifference : ℚ))
        shotsPerGame := some (st.goalsPerGame * 6)
        shotsOnTargetPerGame := some (st.goalsPerGame * 6 * (7/20)) } := by
  obtain ⟨hne, hseas⟩ := get_fbref_rows_spec hd
  constructor
  · have hie : det.isEmpty = false := by
      cases det with
      | nil => exact absurd rfl hne
      | cons a t => rfl
    unfold get_hybrid_team_stats
    rw [hb]
    simp only [basicOrNone, hd, hie, hcols]
    simp
  · intro st hst
    have hsts : st.season ∈ seasons := report_mem_season hb st hst
    apply mergeRow_of_no_match
    intro d hdmem
    rcases hseas d hdmem with h0 | ⟨s2, hs2, h0⟩
    · rw [h0]
      rfl
    · rw [h0]
      have hne2 : s2 ≠ st.season := fun he =>
        seasons_adv_disjoint st.season hsts s2 hs2 he.symm
      simp [hne2]

/-- C9 witness: the amended claim evaluated on the concrete
Manchester/Newcastle scenario. -/
theorem C9_witness :
    get_hybrid_team_stats provider9 tables9 "england" "united" =
      .ok (some ([muStat].map (mergeRow [d9]))) ∧
    mergeRow [d9] muStat =
      { stats := muStat
        avgPossession :=
          some (estimatePossessionHybrid (muStat.goalDifference : ℚ))
        shotsPerGame := some (muStat.goalsPerGame * 6)
        shotsOnTargetPerGame :=
          some (muStat.goalsPerGame * 6 * (7/20)) } := by
  have h := C9_detail_rows_never_merge provider9 tables9 "england" "united"
    [muStat] [d9] report_provider9 get_fbref_tables9 (by decide)
  exact ⟨h.1, h.2 muStat (by simp)⟩

/-- C2 counterexample: under `provider4` exactly two of the five
requested seasons yield a matching fast-source row for Arsenal, yet
the report contains only one entry — the matched 2024/2025 row fails
to parse (unparseable `W`) and is skipped, so the report size is not
the number of matching seasons. -/
theorem C2_counterexample :
    seasons.countP
      (fun s => seasonHasMatch provider4 "ENG-Premier League" "Arsenal" s) =
      2 ∧
    get_team_league_table_stats provider4 "england" "arsenal" =
      .report [stArs "2023/2024"] ∧
    ([stArs "2023/2024"] : List Stats).length ≠ 2 := by
  refine ⟨by decide, ?_, by decide⟩
  have hl : league_mappings.lookup (pyLower "england") =
      some "ENG-Premier League" := by decide
  have hm : find_team_match provider4 "england" "arsenal" =
      .ok (some "Arsenal") := by rfl
  norm_num +decide [get_team_league_table_stats, hl, hm, get_available_teams,
    provider4, seasons, seasons_loop, processSeason, processSeasonLogged,
    rowStats_none_of_bad_w, rowStats_arsRow]

/-- C2 (amended): when the league and team resolve and exactly
`k ≥ 1` of the five requested seasons produce a matching row that also
fully parses, the outcome is a report whose rows are exactly those `k`
seasons in the fixed newest-first order, and whose summary means
(points, goals-per-game) are sums over exactly those `k` rows divided
by `k`; a season with no matching row — or whose matching row fails to
parse — is skipped. -/
theorem C2_report_exactly_k_seasons (provider : Provider)
    (league team code name : String) (k : ℕ)
    (h1 : league_mappings.lookup (pyLower league) = some code)
    (h2 : find_team_match provider league team = .ok (some name))
    (hk : seasons.countP
        (fun s => (processSeason (provider code s) name league s).isSome) = k)
    (h1k : 1 ≤ k) :
    get_team_league_table_stats provider league team =
      .report (reportRows provider code name league) ∧
    (reportRows provider code name league).length = k ∧
    (reportRows provider code name league).map Stats.season =
      seasons.filter
        (fun s => (processSeason (provider code s) name league s).isSome) ∧
    averagePoints (reportRows provider code name league) =
      ((reportRows provider code name league).map
        (fun st => (st.points : ℚ))).sum / (k : ℚ) ∧
    averageGoalsPerGame (reportRows provider code name league) =
      ((reportRows provider code name league).map
        (fun st => st.goalsPerGame)).sum / (k : ℚ) := by
  have hlen : (reportRows provider code name league).length = k := by
    unfold reportRows
    rw [length_filterMap_eq_countP]
    exact hk
  have hie : (reportRows provider code name league).isEmpty = false := by
    cases hrr : reportRows provider code name league with
    | nil => rw [hrr] at hlen; simp at hlen; omega
    | cons a t => rfl
  refine ⟨?_, hlen, ?_, ?_, ?_⟩
  · unfold get_team_league_table_stats
    simp only [h1, h2]
    rw [seasons_loop_eq_filterMap]
    rw [show seasons.filterMap
        (fun s => processSeason (provider code s) name league s) =
        reportRows provider code name league from rfl]
    rw [hie]
    simp
  · unfold reportRows
    exact map_filterMap_eq_filter _ _ _ (fun s st h => processSeason_some_season h)
  · unfold averagePoints
    rw [hlen]
  · unfold averageGoalsPerGame
    rw [hlen]

/-- C2 witness: a provider with Arsenal rows in exactly three of the
five seasons produces a three-row report, newest first, with the
summary means taken over those three rows. -/
theorem C2_witness :
    get_team_league_table_stats provider3 "england" "arsenal" =
      .report (reportRows provider3 "ENG-Premier League" "Arsenal" "england") ∧
    (reportRows provider3 "ENG-Premier League" "Arsenal" "england").length = 3 ∧
    (reportRows provider3 "ENG-Premier League" "Arsenal" "england").map
        Stats.season =
      seasons.filter (fun s =>
        (processSeason (provider3 "ENG-Premier League" s) "Arsenal" "england"
          s).isSome) ∧
    averagePoints (reportRows provider3 "ENG-Premier League" "Arsenal" "england") =
      ((reportRows provider3 "ENG-Premier League" "Arsenal" "england").map
        (fun st => (st.points : ℚ))).sum / (3 : ℚ) ∧
    averageGoalsPerGame
        (reportRows provider3 "ENG-Premier League" "Arsenal" "england") =
      ((reportRows provider3 "ENG-Premier League" "Arsenal" "england").map
        (fun st => st.goalsPerGame)).sum / (3 : ℚ) := by
  have hk : seasons.countP (fun s =>
      (processSeason (provider3 "ENG-Premier League" s) "Arsenal" "england"
        s).isSome) = 3 := by
    norm_num +decide [seasons, List.countP_cons, processSeason,
      processSeasonLogged, provider3, rowStats_arsRow]
  exact C2_report_exactly_k_seasons provider3 "england" "arsenal"
    "ENG-Premier League" "Arsenal" 3 (by decide) (by rfl) hk (by norm_num)
